import Mathlib

/-!
# Verification of the pible scan/connect pipeline

A shallow embedding, in Lean 4, of the parts of the pible Bluetooth
surveillance daemon that the specification's testable properties talk
about: the per-adapter BlueZ discovery loop's throttling and connect
gating (`cmd/pible/main.go`), the store facade (`internal/db/store.go`),
the GPS state (`internal/gps/state.go`), the device-type classifier
(`device_types.go`), the address classification and the name sanitizer
(`internal/bluetooth`, `internal/util`).

Modelling conventions:
- Go wall-clock times and timestamps are modelled as `Nat` seconds.
  `time.Duration` subtraction `now.Sub(last) < d` on non-negative
  clocks is `now - last < d` with truncated `Nat` subtraction
  (a negative Go difference is also `< d`, and truncation gives `0 < d`
  in that case, agreeing with Go for positive `d`).
  The `time.Parse` failure branches of the source cannot arise here
  because a `Nat` timestamp always "parses".
- Go `*T` pointers / SQL nullable columns are `Option`.
- GPS coordinates (Go `float64`) are modelled as `ℚ`; the claims under
  scrutiny use exactly-representable values, and `%f` formatting is
  modelled by `fmt6` below.
- SQL rows are Lean structures; each store operation is a function from
  the old (optional) row to the new row, following the SQL statement.
-/

namespace Pible

/-! ## Go string primitives (ASCII fragment), kernel-computable -/

/-- Whitespace cut set of Go `strings.TrimSpace` (ASCII fragment). -/
def isSpaceChar (c : Char) : Bool :=
  c == ' ' || c == '\t' || c == '\n' || c == '\r'

/-- Go `strings.TrimSpace` on the character list. -/
def trimChars (l : List Char) : List Char :=
  ((l.dropWhile isSpaceChar).reverse.dropWhile isSpaceChar).reverse

/-- Go `strings.TrimSpace`. -/
def goTrim (s : String) : String :=
  String.mk (trimChars s.data)

/-- ASCII lower-casing of one character. -/
def lowerChar (c : Char) : Char :=
  if 'A' ≤ c && c ≤ 'Z' then Char.ofNat (c.toNat + 32) else c

/-- ASCII upper-casing of one character. -/
def upperChar (c : Char) : Char :=
  if 'a' ≤ c && c ≤ 'z' then Char.ofNat (c.toNat - 32) else c

/-- Go `strings.ToLower` (ASCII fragment). -/
def goLower (s : String) : String :=
  String.mk (s.data.map lowerChar)

/-- Go `strings.ToUpper` (ASCII fragment). -/
def goUpper (s : String) : String :=
  String.mk (s.data.map upperChar)

/-- Go `strings.EqualFold` restricted to ASCII, as used by the source on
family tags such as "dual". -/
def eqFold (a b : String) : Bool :=
  goLower a == goLower b

/-! ## util: MAC-shaped names and `SafeName` (internal/util) -/

/-- Hexadecimal digit class `[0-9A-Fa-f]` of the MAC regexp, by code
point. -/
def isHexDigit (c : Char) : Bool :=
  let n := c.toNat
  (48 ≤ n && n ≤ 57) || (65 ≤ n && n ≤ 70) || (97 ≤ n && n ≤ 102)

/-- Separator class `[:-]` of the MAC regexp. -/
def isMacSep (c : Char) : Bool :=
  c == ':' || c == '-'

/-- The language of `^([0-9A-Fa-f]{2}[:-]){5}([0-9A-Fa-f]{2})$` on a
character list: six hex octets with a `:` or `-` between consecutive
octets. -/
def isMacChars : List Char → Bool
  | [a1, a2, s1, b1, b2, s2, c1, c2, s3, d1, d2, s4, e1, e2, s5, f1, f2] =>
    isHexDigit a1 && isHexDigit a2 && isMacSep s1 &&
    isHexDigit b1 && isHexDigit b2 && isMacSep s2 &&
    isHexDigit c1 && isHexDigit c2 && isMacSep s3 &&
    isHexDigit d1 && isHexDigit d2 && isMacSep s4 &&
    isHexDigit e1 && isHexDigit e2 && isMacSep s5 &&
    isHexDigit f1 && isHexDigit f2
  | _ => false

/-- Model of `util.IsMACAddress`: the trimmed string matches the MAC regexp. -/
def isMACAddress (s : String) : Bool :=
  isMacChars (goTrim s).data

/-- Model of `util.SafeName`: empty (after trimming) or MAC-shaped local names
become "Unknown"; otherwise the trimmed name is kept. -/
def safeName (localName : String) : String :=
  let name := goTrim localName
  if name = "" then "Unknown"
  else if isMACAddress name then "Unknown"
  else name

/-- Model of `db.normalizeMAC`: upper-case the trimmed MAC. -/
def normalizeMAC (mac : String) : String :=
  goUpper (goTrim mac)

/-! ## GPS state (internal/gps/state.go) -/

/-- Pad a decimal string on the left with zeros to width 6. -/
def padZeros6 (s : String) : String :=
  String.mk (List.replicate (6 - s.length) '0') ++ s

/-- Go `fmt.Sprintf("%f", x)` for our rational coordinates: sign,
integer part, `.`, six fractional digits.  The magnitude times `10^6`
is rounded half-up using the numerator/denominator directly so that the
kernel can evaluate it; the scrutinised values are exact. -/
def fmt6 (q : ℚ) : String :=
  let neg := q.num < 0
  let a : ℕ := q.num.natAbs
  let n : ℕ := (a * 2000000 + q.den) / (2 * q.den)
  (if neg then "-" else "") ++ toString (n / 1000000) ++ "." ++ padZeros6 (toString (n % 1000000))

/-- The fields of `gps.State` that `GPSStringForRecord` reads.
`lastFix = none` models the zero `time.Time` (no fix ever received). -/
structure GpsState where
  useGPS : Bool
  lat : ℚ
  lon : ℚ
  lastFix : Option Nat
  timeout : Nat
  deriving Repr

/-- Model of `State.GPSStringForRecord` at wall-clock `now`: `"lat, lon"` when
the fix is fresh, `"(lat, lon)"` when stale, `none` when never fixed
(or GPS disabled). -/
def gpsStringForRecord (s : GpsState) (now : Nat) : Option String :=
  if !s.useGPS then none
  else
    match s.lastFix with
    | none => none
    | some t =>
      if now - t ≤ s.timeout then
        some (fmt6 s.lat ++ ", " ++ fmt6 s.lon)
      else
        some ("(" ++ fmt6 s.lat ++ ", " ++ fmt6 s.lon ++ ")")

/-! ## Store facade (internal/db/store.go) -/

/-- A row of the `devices` table; column names follow the schema.
`serviceList` is the `service` column, `markedType` the `type` column. -/
structure DeviceRow where
  sessionID : Option Int
  deviceType : Option String
  name : Option String
  mac : String
  macType : Option String
  macSubtype : Option String
  rssi : Option Int
  timestamp : Option Nat
  adapter : Option String
  manufacturerData : Option String
  manufacturerName : Option String
  serviceUUIDs : Option String
  serviceData : Option String
  txPower : Option String
  platformData : Option String
  advertisementJSON : Option String
  lastAdvID : Option Int
  gps : Option String
  serviceList : Option String
  detectionCount : Nat
  lastCountUpdate : Option Nat
  tag : Option String
  markedType : Option String
  deriving Repr, DecidableEq

/-- Model of `db.SaveParams`; Go nil pointers are `none`. -/
structure SaveParams where
  sessionID : Option Int := none
  deviceType : Option String := none
  name : Option String := none
  mac : String
  macType : Option String := none
  macSubtype : Option String := none
  rssi : Option Int := none
  timestamp : Option Nat := none
  adapter : Option String := none
  manufacturerData : Option String := none
  manufacturerName : Option String := none
  serviceUUIDs : Option String := none
  serviceData : Option String := none
  txPower : Option String := none
  platformData : Option String := none
  advertisementJSON : Option String := none
  lastAdvID : Option Int := none
  gps : Option String := none
  serviceList : Option String := none
  updateExisting : Bool := false
  tag : Option String := none
  markedType : Option String := none
  deriving Repr, DecidableEq

/-- "set only the provided fields": a column takes the parameter when the
pointer is non-nil, otherwise it keeps the stored value (this is also
SQL `COALESCE(excluded.x, t.x)` in the upserts). -/
def setOpt (new old : Option α) : Option α :=
  match new with
  | some v => some v
  | none => old

/-- The `device_family` merge of `SaveDevice` (dual promotion).
`stored` is the trimmed existing `device_type` column. -/
def mergeFamily (incoming : Option String) (stored : String) : String :=
  match incoming with
  | none => stored
  | some raw =>
    let inc := goTrim raw
    if inc = "" then stored
    else if stored = "" then inc
    else if eqFold stored "dual" then stored
    else if eqFold inc "dual" then "dual"
    else if !eqFold stored inc then "dual"
    else stored

/-- The `detection_count` / `last_count_update` step of `SaveDevice`:
bump iff no previous update is recorded or at least 30 minutes (1800 s)
have passed since it. -/
def bumpDetectionCount (count : Nat) (lastCountUpdate : Option Nat) (ts : Nat) :
    Nat × Nat :=
  match lastCountUpdate with
  | none => (count + 1, ts)
  | some prev => if 1800 ≤ ts - prev then (count + 1, ts) else (count, prev)

/-- The `UPDATE devices SET ...` path of `SaveDevice`. -/
def updateDevice (p : SaveParams) (ts : Nat) (r : DeviceRow) : DeviceRow :=
  let typeStr := mergeFamily p.deviceType (goTrim (r.deviceType.getD ""))
  let cl := bumpDetectionCount r.detectionCount r.lastCountUpdate ts
  { r with
    name := setOpt p.name r.name
    macType := setOpt p.macType r.macType
    macSubtype := setOpt p.macSubtype r.macSubtype
    sessionID := setOpt p.sessionID r.sessionID
    deviceType := if typeStr = "" then r.deviceType else some typeStr
    rssi := setOpt p.rssi r.rssi
    timestamp := some ts
    adapter := setOpt p.adapter r.adapter
    manufacturerData := setOpt p.manufacturerData r.manufacturerData
    manufacturerName := setOpt p.manufacturerName r.manufacturerName
    serviceUUIDs := setOpt p.serviceUUIDs r.serviceUUIDs
    serviceData := setOpt p.serviceData r.serviceData
    txPower := setOpt p.txPower r.txPower
    platformData := setOpt p.platformData r.platformData
    advertisementJSON := setOpt p.advertisementJSON r.advertisementJSON
    lastAdvID := setOpt p.lastAdvID r.lastAdvID
    gps := setOpt p.gps r.gps
    serviceList := setOpt p.serviceList r.serviceList
    detectionCount := cl.1
    lastCountUpdate := some cl.2
    tag := setOpt p.tag r.tag
    markedType :=
      match p.markedType with
      | some mt0 => if goTrim mt0 = "" then r.markedType else some (goTrim mt0)
      | none => r.markedType }

/-- The `INSERT OR IGNORE` path of `SaveDevice` on a missing row:
`detection_count = 1`, `last_count_update` = the call's timestamp. -/
def insertDevice (p : SaveParams) (ts : Nat) : DeviceRow where
  sessionID := p.sessionID
  deviceType := p.deviceType
  name := p.name
  mac := normalizeMAC p.mac
  macType := p.macType
  macSubtype := p.macSubtype
  rssi := p.rssi
  timestamp := some ts
  adapter := p.adapter
  manufacturerData := p.manufacturerData
  manufacturerName := p.manufacturerName
  serviceUUIDs := p.serviceUUIDs
  serviceData := p.serviceData
  txPower := p.txPower
  platformData := p.platformData
  advertisementJSON := p.advertisementJSON
  lastAdvID := p.lastAdvID
  gps := p.gps
  serviceList := p.serviceList
  detectionCount := 1
  lastCountUpdate := some ts
  tag := p.tag
  markedType := p.markedType

/-- Model of `Store.SaveDevice` acting on the (optional) row stored under the
normalized MAC.  An empty MAC is the Go error return (no write); an
existing row with `updateExisting = false` is `INSERT OR IGNORE`
(no change); a missing row is inserted even under `updateExisting`
(the Go fallback on `sql.ErrNoRows`). -/
def saveDevice (p : SaveParams) (now : Nat) (row : Option DeviceRow) :
    Option DeviceRow :=
  if normalizeMAC p.mac = "" then row
  else
    let ts := p.timestamp.getD now
    match row, p.updateExisting with
    | some r, true => some (updateDevice p ts r)
    | some r, false => some r
    | none, _ => some (insertDevice p ts)

/-- One `SaveDevice` call folded over a stored row (for call traces). -/
def applySave (r : DeviceRow) (pn : SaveParams × Nat) : DeviceRow :=
  (saveDevice pn.1 pn.2 (some r)).getD r

/-- Model of `Store.UpdateDeviceGPS`: fast targeted `UPDATE devices SET gps = ?`;
a no-op on empty MAC or empty trimmed text. -/
def updateDeviceGPS (mac gpsText : String) (row : Option DeviceRow) :
    Option DeviceRow :=
  if normalizeMAC mac = "" then row
  else if goTrim gpsText = "" then row
  else row.map fun r => { r with gps := some (goTrim gpsText) }

/-- Model of `Store.UpdateDeviceMarkedType`: fast targeted
`UPDATE devices SET type = ?`; a no-op on empty MAC or empty type. -/
def updateDeviceMarkedType (mac markedType : String) (row : Option DeviceRow) :
    Option DeviceRow :=
  if normalizeMAC mac = "" then row
  else if goTrim markedType = "" then row
  else row.map fun r => { r with markedType := some (goTrim markedType) }

/-- A row of `gatt_characteristics`, keyed by (mac, service_uuid,
char_uuid). -/
structure GattCharRow where
  mac : String
  serviceUUID : String
  charUUID : String
  serviceHandle : Option Nat
  charHandle : Option Nat
  flagsJSON : Option String
  valueHex : Option String
  valueASCII : Option String
  readError : Option String
  lastReadAt : String
  deriving Repr, DecidableEq

/-- Model of `db.GattCharacteristicParams` (`LastReadAt` is a plain string in the
source, not a pointer). -/
structure GattCharacteristicParams where
  mac : String
  serviceUUID : String
  serviceHandle : Option Nat := none
  charUUID : String
  charHandle : Option Nat := none
  flagsJSON : Option String := none
  valueHex : Option String := none
  valueASCII : Option String := none
  readError : Option String := none
  lastReadAt : String
  deriving Repr, DecidableEq

/-- Model of `Store.UpsertGattCharacteristic` on the row stored under the key:
insert, or on conflict coalesce handles/flags/values with the stored
row while always replacing `read_error` and `last_read_at`. -/
def upsertGattCharacteristic (p : GattCharacteristicParams)
    (row : Option GattCharRow) : Option GattCharRow :=
  if normalizeMAC p.mac = "" ∨ goTrim p.serviceUUID = "" ∨ goTrim p.charUUID = "" then
    row
  else
    match row with
    | none => some
      { mac := normalizeMAC p.mac
        serviceUUID := goTrim p.serviceUUID
        charUUID := goTrim p.charUUID
        serviceHandle := p.serviceHandle
        charHandle := p.charHandle
        flagsJSON := p.flagsJSON
        valueHex := p.valueHex
        valueASCII := p.valueASCII
        readError := p.readError
        lastReadAt := p.lastReadAt }
    | some r => some
      { r with
        serviceHandle := setOpt p.serviceHandle r.serviceHandle
        charHandle := setOpt p.charHandle r.charHandle
        flagsJSON := setOpt p.flagsJSON r.flagsJSON
        valueHex := setOpt p.valueHex r.valueHex
        valueASCII := setOpt p.valueASCII r.valueASCII
        readError := p.readError
        lastReadAt := p.lastReadAt }

/-- The in-process per-MAC GPS-history cache of the store
(`gpsHistLast` / `gpsHistLastAt`) together with the number of history
rows appended for the MAC.  `lastAt = none` models the zero `time.Time`
returned by a missing map entry. -/
structure GpsHistState where
  lastTxt : Option String
  lastAt : Option Nat
  rows : Nat
  deriving Repr, DecidableEq

/-- Model of `Store.RecordDeviceGPSHistoryIfChanged` for one MAC: appends unless
the trimmed text equals the cached text and the cached write time is set
and younger than 30 s.  Empty MAC or empty trimmed text returns without
writing.  Returns whether a row was appended, and the new cache. -/
def recordDeviceGPSHistoryIfChanged (mac gpsText : String) (now : Nat)
    (st : GpsHistState) : Bool × GpsHistState :=
  if normalizeMAC mac = "" then (false, st)
  else
    let t := goTrim gpsText
    if t = "" then (false, st)
    else
      let lastTxt := st.lastTxt.getD ""
      let recent : Bool := match st.lastAt with
        | some a => decide (now - a < 30)
        | none => false
      if lastTxt == t && recent then (false, st)
      else (true, { lastTxt := some t, lastAt := some now, rows := st.rows + 1 })

/-! ## BlueZ snapshot classification (internal/bluetooth, cmd/pible) -/

/-- The fields of a `bluezDevice` snapshot entry that classification and
gating read.  `classVal` is the `Class` property. -/
structure BluezDevice where
  name : String := ""
  typ : Option String := none
  addressType : Option String := none
  rssi : Option Int := none
  classVal : Option Nat := none
  legacyPairing : Option Bool := none
  deriving Repr, DecidableEq

/-- The `Class ≠ 0` / `LegacyPairing` fallback of `isClassicLikely`. -/
def BluezDevice.classicFallback (d : BluezDevice) : Bool :=
  (match d.classVal with
   | some c => decide (c ≠ 0)
   | none => false) ||
  (match d.legacyPairing with
   | some b => b
   | none => false)

/-- Model of `bluezDevice.isClassicLikely`: `Type` of `bredr`/`dual` means
classic, `le` means not; otherwise fall back to class / legacy
pairing. -/
def BluezDevice.isClassicLikely (d : BluezDevice) : Bool :=
  match d.typ with
  | some t0 =>
    let t := goLower (goTrim t0)
    if t = "bredr" || t = "dual" then true
    else if t = "le" then false
    else d.classicFallback
  | none => d.classicFallback

/-- Model of `bluezTypeToDeviceType`: map the BlueZ `Type` property to the
device family (`ble`/`classic`/`dual`), falling back to the
classic-likely heuristic. -/
def bluezTypeToDeviceType (d : BluezDevice) : String :=
  match d.typ with
  | some t0 =>
    let t := goLower (goTrim t0)
    if t = "le" then "ble"
    else if t = "bredr" then "classic"
    else if t = "dual" then "dual"
    else if d.isClassicLikely then "classic" else "ble"
  | none => if d.isClassicLikely then "classic" else "ble"

/-- The MAC type/subtype computation of the BlueZ discovery loop
(main.go "MAC type/subtype" block): `mac_type` is
`"public_or_unknown"` unless the lowercased, trimmed `AddressType`
hint is `"random"`; `mac_subtype` is that lowercased hint itself
(empty when the hint is absent).  The MAC's bits are not consulted. -/
def macTypeSub (addressType : Option String) : String × String :=
  match addressType with
  | none => ("public_or_unknown", "")
  | some at0 =>
    let at1 := goLower (goTrim at0)
    (if at1 = "random" then "random" else "public_or_unknown", at1)

/-! ## Connect scheduling (discovery loop, main.go) -/

/-- Per-MAC connect bookkeeping of the discovery loop. -/
structure ConnGate where
  seenCount : Nat
  inFlight : Bool
  lastConnAttempt : Option Nat
  deriving Repr, DecidableEq

/-- Outcome of one connect-scheduling attempt. -/
structure ConnResult where
  enqueued : Bool
  inFlight : Bool
  lastConnAttempt : Option Nat
  deriving Repr, DecidableEq

/-- The connect-scheduling tail of one observation in the discovery
loop.  `sendOk` is whether the non-blocking send on the bounded queue
succeeds (`false` models a full queue: the `default` branch of the
`select`).  The cooldown is 30 min = 1800 s. -/
def connectSchedule (devType : String) (rssi : Option Int) (hasGatt : Bool)
    (g : ConnGate) (now : Nat) (sendOk : Bool) : ConnResult :=
  let skip : ConnResult := ⟨false, g.inFlight, g.lastConnAttempt⟩
  let attempt : ConnResult :=
    if sendOk then ⟨true, true, some now⟩ else ⟨false, false, some now⟩
  if devType = "classic" then skip
  else
    match rssi with
    | none => skip
    | some r =>
      if r < -75 then skip
      else if g.seenCount < 2 then skip
      else if hasGatt then skip
      else if g.inFlight then skip
      else
        match g.lastConnAttempt with
        | some last => if now - last < 1800 then skip else attempt
        | none => attempt

/-! ## The per-observation persistence step (main.go discovery loop) -/

/-- Per-MAC write-throttling bookkeeping of the discovery loop. -/
structure MacWriteState where
  lastDeviceWrite : Option Nat
  lastGPSVal : Option String
  lastGPSWrite : Option Nat
  lastMarked : Option String
  deriving Repr, DecidableEq

/-- The loop-local values one snapshot observation carries into the
persistence branch.  JSON payloads built upstream (`jsonOrEmptyArray`,
`buildAdvertisementJSONBlueZ`, vendor lookup, `PropsJSON`) are carried
opaquely. -/
structure LoopObservation where
  mac : String
  rawName : String
  devType : String
  macType : String
  macSubtype : String
  rssi : Option Int := none
  gpsStr : Option String := none
  markedTypeStr : String := ""
  sessionID : Int := 1
  adapter : String := "hci0"
  mfgJSON : Option String := none
  vendor : Option String := none
  svcUUIDJSON : Option String := none
  svcDataJSON : Option String := none
  txPower : Option String := none
  propsJSON : Option String := none
  advJSON : Option String := none
  tag : Option String := none
  deriving Repr, DecidableEq

/-- Result of the persistence branch for one observation. -/
structure PersistResult where
  row : Option DeviceRow
  hist : GpsHistState
  st : MacWriteState
  savedFull : Bool
  printedName : String
  deriving Repr, DecidableEq

/-- The quick-GPS-refresh gate inside the throttle window: refresh when
the text changed (or none is cached), else when the last GPS write is
missing or at least 10 s old. -/
def gpsQuickNeed (st : MacWriteState) (gpsText : String) (now : Nat) : Bool :=
  if (match st.lastGPSVal with
      | none => true
      | some prev => decide (prev ≠ gpsText)) then true
  else
    match st.lastGPSWrite with
    | none => true
    | some t0 => decide (10 ≤ now - t0)

/-- The GPS write shared by both branches: update the device `gps`
column and append to the GPS history, then refresh the loop cache. -/
def gpsWriteAction (mac gpsText : String) (now : Nat) (row : Option DeviceRow)
    (hist : GpsHistState) (st : MacWriteState) :
    Option DeviceRow × GpsHistState × MacWriteState :=
  (updateDeviceGPS mac gpsText row,
   (recordDeviceGPSHistoryIfChanged mac gpsText now hist).2,
   { st with lastGPSVal := some gpsText, lastGPSWrite := some now })

/-- The marker-type tail shared by both branches: when the classifier
produced a non-empty type, refresh the loop cache on change and write
the `type` column. -/
def markedAction (mac markedTypeStr : String) (row : Option DeviceRow)
    (st : MacWriteState) : Option DeviceRow × MacWriteState :=
  let mt := goTrim markedTypeStr
  if mt = "" then (row, st)
  else
    let st' :=
      if (match st.lastMarked with
          | none => true
          | some prev => decide (prev ≠ mt)) then
        { st with lastMarked := some mt }
      else st
    (updateDeviceMarkedType mac mt row, st')

/-- The conditional quick GPS refresh inside the throttle window:
write only when the text is non-empty and `gpsQuickNeed` holds. -/
def quickGpsStep (o : LoopObservation) (row : Option DeviceRow)
    (hist : GpsHistState) (st : MacWriteState) (now : Nat) :
    Option DeviceRow × GpsHistState × MacWriteState :=
  match o.gpsStr with
  | some g =>
    let gpsText := goTrim g
    if gpsText = "" then (row, hist, st)
    else if gpsQuickNeed st gpsText now then
      gpsWriteAction o.mac gpsText now row hist st
    else (row, hist, st)
  | none => (row, hist, st)

/-- The unconditional GPS refresh on the full-write path: write
whenever a non-empty text is at hand. -/
def fullGpsStep (o : LoopObservation) (row : Option DeviceRow)
    (hist : GpsHistState) (st : MacWriteState) (now : Nat) :
    Option DeviceRow × GpsHistState × MacWriteState :=
  match o.gpsStr with
  | some g =>
    let gpsText := goTrim g
    if gpsText = "" then (row, hist, st)
    else gpsWriteAction o.mac gpsText now row hist st
  | none => (row, hist, st)

/-- The `SaveDevice` parameters the full-write path builds from one
observation: every decoded field, `update_existing = true`, the
sanitized name. -/
def observeSaveParams (o : LoopObservation) (ts : Nat) : SaveParams where
  sessionID := some o.sessionID
  deviceType := some o.devType
  name := some (safeName o.rawName)
  mac := o.mac
  macType := some o.macType
  macSubtype := some o.macSubtype
  rssi := o.rssi
  timestamp := some ts
  adapter := some o.adapter
  manufacturerData := o.mfgJSON
  manufacturerName := o.vendor
  serviceUUIDs := o.svcUUIDJSON
  serviceData := o.svcDataJSON
  txPower := o.txPower
  platformData := o.propsJSON
  advertisementJSON := o.advJSON
  gps := o.gpsStr
  updateExisting := true
  tag := o.tag

/-- The persistence branch of one observation of the snapshot tick:
inside the 10 s throttle window only quick GPS / marker updates run;
otherwise a full `SaveDevice` upsert with every decoded field.
`now` is the tick's clock, `ts` the observation's timestamp. -/
def observePersistStep (o : LoopObservation) (row : Option DeviceRow)
    (hist : GpsHistState) (st : MacWriteState) (now ts : Nat) : PersistResult :=
  let name := safeName o.rawName
  let throttled : Bool :=
    match st.lastDeviceWrite with
    | some last => decide (now - last < 10)
    | none => false
  if throttled then
    let s1 := quickGpsStep o row hist st now
    let s2 := markedAction o.mac o.markedTypeStr s1.1 s1.2.2
    ⟨s2.1, s1.2.1, s2.2, false, name⟩
  else
    let stA := { st with lastDeviceWrite := some now }
    let s1 := fullGpsStep o row hist stA now
    let row2 := saveDevice (observeSaveParams o ts) now s1.1
    let s2 := markedAction o.mac o.markedTypeStr row2 s1.2.2
    ⟨s2.1, s1.2.1, s2.2, true, name⟩

/-! ## Device-type classifier (device_types.go) -/

/-- One manufacturer TLV as the snapshot stores it: company id
(uint16) and payload as the hex text produced by `util.BytesToHex`. -/
structure ManufacturerEntry where
  companyID : Nat
  dataHex : String
  deriving Repr, DecidableEq

/-- The `ibeacon` trigger block of a pattern (YAML ints are Go `int`). -/
structure IBeaconSpec where
  appleCompanyID : Int := 0
  uuid : String := ""
  major : Int := 0
  minor : Int := 0
  deriving Repr, DecidableEq

/-- The `manufacturer_5b` trigger block of a pattern. -/
structure Manufacturer5BSpec where
  companyID : Int := 0
  length : Int := 0
  deriving Repr, DecidableEq

/-- Model of `bluetooth.DeviceTypePattern`. -/
structure DeviceTypePattern where
  name : String := ""
  requireServiceUUID : String := ""
  ibeacon : IBeaconSpec := {}
  manufacturer5B : Manufacturer5BSpec := {}
  nameBase645B : Bool := false
  deriving Repr, DecidableEq

/-- Value of one hex digit, upper or lower case (by code point:
48-57 are digits, 97-102 lower, 65-70 upper letters). -/
def hexVal (c : Char) : Option Nat :=
  let n := c.toNat
  if 48 ≤ n ∧ n ≤ 57 then some (n - 48)
  else if 97 ≤ n ∧ n ≤ 102 then some (n - 87)
  else if 65 ≤ n ∧ n ≤ 70 then some (n - 55)
  else none

/-- Go `hex.DecodeString`: an even-length string of hex digits decodes
pairwise to bytes; anything else is an error. -/
def hexDecodeChars : List Char → Option (List Nat)
  | [] => some []
  | c1 :: c2 :: rest =>
    match hexVal c1, hexVal c2, hexDecodeChars rest with
    | some h, some l, some bs => some ((h * 16 + l) :: bs)
    | _, _, _ => none
  | [_] => none

/-- Go `hex.DecodeString` on a string. -/
def hexDecode (s : String) : Option (List Nat) :=
  hexDecodeChars s.data

/-- Go `strings.Fields`: maximal runs of non-whitespace. -/
def fieldsAux : List Char → List Char → List String
  | [], acc => if acc.isEmpty then [] else [String.mk acc.reverse]
  | c :: rest, acc =>
    if isSpaceChar c then
      if acc.isEmpty then fieldsAux rest []
      else String.mk acc.reverse :: fieldsAux rest []
    else fieldsAux rest (c :: acc)

/-- Go `strings.Fields` on a string. -/
def goFields (s : String) : List String :=
  fieldsAux s.data []

/-- The field-by-field path of `parseHexBytes`: each non-empty field,
left-padded to two digits when a single digit, must decode to exactly
one byte; otherwise the whole parse yields nil. -/
def parseFieldwise : List String → Option (List Nat)
  | [] => some []
  | f :: rest =>
    let f1 := goTrim f
    if f1 = "" then parseFieldwise rest
    else
      let f2 := if f1.length = 1 then "0" ++ f1 else f1
      match hexDecode f2 with
      | some [b] => (parseFieldwise rest).map (b :: ·)
      | _ => none

/-- Model of `parseHexBytes`: a single whitespace-free field is tried as one
continuous hex string first (the `ReplaceAll` of the source is the
identity on a field); otherwise, and on failure, the fields are decoded
one byte each.  Failure is the empty list (Go nil). -/
def parseHexBytes (s : String) : List Nat :=
  let t := goTrim s
  if t = "" then []
  else
    match goFields t with
    | [] => []
    | [f] =>
      match hexDecode f with
      | some b => b
      | none => (parseFieldwise [f]).getD []
    | fs => (parseFieldwise fs).getD []

/-- Model of `findManufacturerBytes`: first entry with the company id whose
payload parses to a non-empty byte list. -/
def findManufacturerBytes : List ManufacturerEntry → Nat → List Nat
  | [], _ => []
  | e :: rest, companyID =>
    if e.companyID ≠ companyID then findManufacturerBytes rest companyID
    else
      let b := parseHexBytes e.dataHex
      if 0 < b.length then b else findManufacturerBytes rest companyID

/-- Lower-case hex digit of a value below 16, by code point. -/
def hexDigitLower (n : Nat) : Char :=
  Char.ofNat (if n < 10 then 48 + n else 87 + n)

/-- Go `hex.EncodeToString` (lower case, no separators). -/
def bytesToHexPlain (bs : List Nat) : List Char :=
  bs.flatMap fun b => [hexDigitLower (b / 16 % 16), hexDigitLower (b % 16)]

/-- Model of `formatUUID`: sixteen bytes as the upper-cased 8-4-4-4-12 form,
empty otherwise. -/
def formatUUID (b : List Nat) : String :=
  if b.length ≠ 16 then ""
  else
    let h := bytesToHexPlain b
    goUpper (String.mk (h.take 8) ++ "-" ++ String.mk ((h.drop 8).take 4) ++ "-"
      ++ String.mk ((h.drop 12).take 4) ++ "-" ++ String.mk ((h.drop 16).take 4)
      ++ "-" ++ String.mk (h.drop 20))

/-- The base64 standard alphabet `[A-Za-z0-9+/]`, by code point. -/
def isB64Char (c : Char) : Bool :=
  let n := c.toNat
  (65 ≤ n && n ≤ 90) || (97 ≤ n && n ≤ 122) || (48 ≤ n && n ≤ 57) ||
  n == 43 || n == 47

/-- The regexp `^[A-Za-z0-9+/]+={0,2}$`: a non-empty alphabet body
followed by at most two `=`. -/
def base64ReMatch (l : List Char) : Bool :=
  let eqs := l.reverse.takeWhile (· == '=')
  let body := (l.reverse.dropWhile (· == '=')).reverse
  decide (eqs.length ≤ 2) && !body.isEmpty && body.all isB64Char

/-- Value of one base64 alphabet character, by code point. -/
def b64Val (c : Char) : Option Nat :=
  let n := c.toNat
  if 65 ≤ n ∧ n ≤ 90 then some (n - 65)
  else if 97 ≤ n ∧ n ≤ 122 then some (n - 71)
  else if 48 ≤ n ∧ n ≤ 57 then some (n + 4)
  else if n = 43 then some 62
  else if n = 47 then some 63
  else none

/-- Go `base64.StdEncoding.DecodeString`: four-character groups; `=`
padding only in the final group (one byte for `xx==`, two for
`xxx=`); length must be a multiple of four. -/
def b64DecodeGroups : List Char → Option (List Nat)
  | [] => some []
  | c1 :: c2 :: c3 :: c4 :: rest =>
    match b64Val c1, b64Val c2 with
    | some v1, some v2 =>
      if c3 = '=' then
        if c4 = '=' ∧ rest = [] then some [v1 * 4 + v2 / 16]
        else none
      else
        match b64Val c3 with
        | some v3 =>
          if c4 = '=' then
            if rest = [] then some [v1 * 4 + v2 / 16, (v2 % 16) * 16 + v3 / 4]
            else none
          else
            match b64Val c4 with
            | some v4 =>
              (b64DecodeGroups rest).map
                (fun bs => (v1 * 4 + v2 / 16) :: ((v2 % 16) * 16 + v3 / 4) ::
                  ((v3 % 4) * 64 + v4) :: bs)
            | none => none
        | none => none
    | _, _ => none
  | _ => none

/-- Go `base64.StdEncoding.DecodeString` on a string. -/
def base64Decode (s : String) : Option (List Nat) :=
  b64DecodeGroups s.data

/-- Trigger 1 of `DetectTypedDevice`: the iBeacon frame inside the
Apple-company manufacturer payload — prefix `02 15`, sixteen UUID
bytes, big-endian major and minor. -/
def ibeaconMatch (p : DeviceTypePattern) (mfg : List ManufacturerEntry) : Bool :=
  if p.ibeacon.uuid ≠ "" ∧ 0 < p.ibeacon.appleCompanyID then
    let payload := findManufacturerBytes mfg ((p.ibeacon.appleCompanyID % 65536).toNat)
    if 23 ≤ payload.length ∧ payload.getD 0 0 = 2 ∧ payload.getD 1 0 = 21 then
      let uuid := goUpper (formatUUID ((payload.drop 2).take 16))
      let major : Int := ((payload.getD 18 0) * 256 + payload.getD 19 0 : Nat)
      let minor : Int := ((payload.getD 20 0) * 256 + payload.getD 21 0 : Nat)
      uuid == goUpper p.ibeacon.uuid && major == p.ibeacon.major && minor == p.ibeacon.minor
    else false
  else false

/-- Trigger 2 of `DetectTypedDevice`: manufacturer payload of an exact
length for a company id. -/
def mfg5bMatch (p : DeviceTypePattern) (mfg : List ManufacturerEntry) : Bool :=
  if 0 < p.manufacturer5B.companyID ∧ 0 < p.manufacturer5B.length then
    let payload := findManufacturerBytes mfg ((p.manufacturer5B.companyID % 65536).toNat)
    decide ((payload.length : Int) = p.manufacturer5B.length)
  else false

/-- Trigger 3 of `DetectTypedDevice`: the local name is base64 of
exactly five bytes. -/
def nameB64Match (p : DeviceTypePattern) (name : String) : Bool :=
  if p.nameBase645B then
    let n := goTrim name
    if n ≠ "" ∧ n.length ≤ 64 ∧ base64ReMatch n.data then
      match base64Decode n with
      | some raw => decide (raw.length = 5)
      | none => false
    else false
  else false

/-- The pattern loop of `DetectTypedDevice`: first pattern with a
non-empty name whose (optional) required service UUID is advertised
and whose first matching trigger fires, in trigger order. -/
def detectLoop (svcSet : List String) (mfg : List ManufacturerEntry)
    (name : String) : List DeviceTypePattern → String
  | [] => ""
  | p :: rest =>
    if p.name = "" then detectLoop svcSet mfg name rest
    else if p.requireServiceUUID ≠ "" ∧ ¬ svcSet.contains (goUpper p.requireServiceUUID) then
      detectLoop svcSet mfg name rest
    else if ibeaconMatch p mfg then p.name
    else if mfg5bMatch p mfg then p.name
    else if nameB64Match p name then p.name
    else detectLoop svcSet mfg name rest

/-- Model of `DetectTypedDevice`: the upper-cased advertised service UUID set is
built once, then the catalog's patterns are tried in order. -/
def detectTypedDevice (patterns : List DeviceTypePattern)
    (serviceUUIDsRaw : List String) (mfg : List ManufacturerEntry)
    (name : String) : String :=
  if patterns = [] then ""
  else
    let svcSet := (serviceUUIDsRaw.map (fun u => goUpper (goTrim u))).filter (· ≠ "")
    detectLoop svcSet mfg name patterns

/-- The `cokeon` pattern of the spec's iBeacon scenario. -/
def cokeonPattern : DeviceTypePattern where
  name := "cokeon"
  ibeacon :=
    { appleCompanyID := 76
      uuid := "8AEFB031-6C32-486F-825B-E26FA193487D"
      major := 42
      minor := 7 }

/-- The scenario observation's 23-byte iBeacon payload in the hex text
form the snapshot stores. -/
def cokeonPayloadHex : String :=
  "02 15 8A EF B0 31 6C 32 48 6F 82 5B E2 6F A1 93 48 7D 00 2A 00 07 C5"

/-- The scenario observation's manufacturer TLV list: company id 76
with the 23-byte iBeacon payload. -/
def cokeonMfg : List ManufacturerEntry :=
  [⟨76, cokeonPayloadHex⟩]

/-! ## Concrete helpers for instantiations -/

/-- A concrete device row with a given MAC and family; all other
nullable columns empty, `detection_count = 1`. -/
def mkRow (mac : String) (fam : Option String) : DeviceRow where
  sessionID := none
  deviceType := fam
  name := none
  mac := mac
  macType := none
  macSubtype := none
  rssi := none
  timestamp := none
  adapter := none
  manufacturerData := none
  manufacturerName := none
  serviceUUIDs := none
  serviceData := none
  txPower := none
  platformData := none
  advertisementJSON := none
  lastAdvID := none
  gps := none
  serviceList := none
  detectionCount := 1
  lastCountUpdate := none
  tag := none
  markedType := none

/-- Minimal insert parameters at a timestamp. -/
def insertAt (mac : String) (t : Nat) : SaveParams where
  mac := mac
  timestamp := some t

/-- Minimal update parameters at a timestamp. -/
def updateAt (mac : String) (t : Nat) : SaveParams where
  mac := mac
  timestamp := some t
  updateExisting := true

/-- Update parameters carrying only a device family. -/
def famUpdParams (fam : String) : SaveParams where
  mac := "AA:BB:CC:DD:EE:01"
  deviceType := some fam
  timestamp := some 0
  updateExisting := true

/-- A repeat upsert call carrying nulls for every coalesced field. -/
def gattNullParams : GattCharacteristicParams where
  mac := "AA:BB:CC:DD:EE:03"
  serviceUUID := "s"
  charUUID := "c"
  readError := none
  lastReadAt := "t2"

/-- A previously stored, fully populated characteristic row. -/
def gattFullRow : GattCharRow where
  mac := "AA:BB:CC:DD:EE:03"
  serviceUUID := "s"
  charUUID := "c"
  serviceHandle := some 1
  charHandle := some 2
  flagsJSON := some "[\"read\"]"
  valueHex := some "01"
  valueASCII := some "a"
  readError := some "boom"
  lastReadAt := "t1"

/-- A concrete observation on adapter hci0 (for instantiations). -/
def obsW : LoopObservation where
  mac := "AA:BB:CC:DD:EE:04"
  rawName := "x"
  devType := "ble"
  macType := "public_or_unknown"
  macSubtype := ""

/-- An observation advertising its own MAC as its local name. -/
def obsSelfNamed : LoopObservation where
  mac := "AA:BB:CC:DD:EE:05"
  rawName := "AA:BB:CC:DD:EE:05"
  devType := "ble"
  macType := "public_or_unknown"
  macSubtype := ""

/-! ## Shared lemmas about `SaveDevice` -/

/-- One `SaveDevice` call either leaves `detection_count` and
`last_count_update` unchanged, or bumps the count by one, stamps
`last_count_update` with the call's timestamp, and — when a previous
stamp existed — at least 1800 s lie between the stamps. -/
theorem applySave_count_lcu (r : DeviceRow) (p : SaveParams) (now : Nat) :
    ((applySave r (p, now)).detectionCount = r.detectionCount ∧
     (applySave r (p, now)).lastCountUpdate = r.lastCountUpdate) ∨
    ((applySave r (p, now)).detectionCount = r.detectionCount + 1 ∧
     (applySave r (p, now)).lastCountUpdate = some (p.timestamp.getD now) ∧
     ∀ u, r.lastCountUpdate = some u → 1800 ≤ p.timestamp.getD now - u) := by
  unfold applySave saveDevice
  by_cases hmac : normalizeMAC p.mac = ""
  · simp [hmac]
  · cases hup : p.updateExisting
    · simp [hmac, hup]
    · simp only [hmac, if_false, hup, Option.getD_some]
      unfold updateDevice bumpDetectionCount
      cases hl : r.lastCountUpdate with
      | none => right; simp [hl]
      | some prev =>
        by_cases hb : 1800 ≤ p.timestamp.getD now - prev
        · right
          refine ⟨by simp [hb], by simp [hb], ?_⟩
          intro u hu
          cases hu
          exact hb
        · left
          constructor
          · simp [hb]
          · simp [hb, hl]

/-- The `detection_count` never decreases across a `SaveDevice` call. -/
theorem applySave_count_mono (r : DeviceRow) (p : SaveParams) (now : Nat) :
    r.detectionCount ≤ (applySave r (p, now)).detectionCount := by
  rcases applySave_count_lcu r p now with ⟨h, _⟩ | ⟨h, _, _⟩ <;> omega

/-- Invariant carried along a trace of `SaveDevice` calls whose
timestamps all lie in the window `[lo, lo + d]` with `d < 1800`:
the count exceeds the baseline by at most one, and when it does, the
last stamp lies in the window. -/
theorem foldl_applySave_window (lo d : Nat) (hd : d < 1800) :
    ∀ (ps : List (SaveParams × Nat)) (r : DeviceRow) (c0 : Nat),
      (∀ pn ∈ ps, lo ≤ pn.1.timestamp.getD pn.2 ∧ pn.1.timestamp.getD pn.2 ≤ lo + d) →
      r.detectionCount ≤ c0 + 1 →
      (r.detectionCount = c0 + 1 →
        ∃ u, r.lastCountUpdate = some u ∧ lo ≤ u ∧ u ≤ lo + d) →
      (ps.foldl applySave r).detectionCount ≤ c0 + 1 := by
  intro ps
  induction ps with
  | nil => intro r c0 _ hle _; simpa using hle
  | cons pn rest ih =>
    obtain ⟨p, n⟩ := pn
    intro r c0 hts hle hwin
    have htn : lo ≤ p.timestamp.getD n ∧ p.timestamp.getD n ≤ lo + d :=
      hts (p, n) (List.mem_cons_self (p, n) rest)
    have htr : ∀ q ∈ rest, lo ≤ q.1.timestamp.getD q.2 ∧ q.1.timestamp.getD q.2 ≤ lo + d :=
      fun q hq => hts q (List.mem_cons_of_mem (p, n) hq)
    simp only [List.foldl_cons]
    rcases applySave_count_lcu r p n with ⟨hc, hu⟩ | ⟨hc, hu, hgap⟩
    · exact ih (applySave r (p, n)) c0 htr (by omega)
        (fun he => by rw [hu]; exact hwin (by omega))
    · have hrc : r.detectionCount ≤ c0 := by
        by_contra hlt
        have he : r.detectionCount = c0 + 1 := by omega
        obtain ⟨u, hu', hul, hur⟩ := hwin he
        have := hgap u hu'
        omega
      exact ih (applySave r (p, n)) c0 htr (by omega)
        (fun _ => ⟨p.timestamp.getD n, by rw [hu], htn.1, htn.2⟩)

/-- C2: for every MAC, `detection_count` is monotonically
non-decreasing across `save_device` calls; along any sequence of
`save_device(update_existing = true)` calls whose timestamps lie in one
wall-clock window shorter than 30 minutes it grows by at most one; and
in the concrete scenario an insert at T=0 has count 1 and
`last_count_update` T=0, an update at T=600 s leaves both, and an
update at T=2100 s yields count 2 with `last_count_update` 2100. -/
theorem saveDevice_detection_count
    (r : DeviceRow) (ps : List (SaveParams × Nat)) (lo d : Nat)
    (hd : d < 1800)
    (hts : ∀ pn ∈ ps, pn.1.updateExisting = true ∧
      lo ≤ pn.1.timestamp.getD pn.2 ∧ pn.1.timestamp.getD pn.2 ≤ lo + d) :
    (∀ (r' : DeviceRow) (p : SaveParams) (n : Nat),
        r'.detectionCount ≤ (applySave r' (p, n)).detectionCount) ∧
    (ps.foldl applySave r).detectionCount ≤ r.detectionCount + 1 ∧
    (saveDevice (insertAt "AA:BB:CC:DD:EE:02" 0) 0 none).map
        (fun q => (q.detectionCount, q.lastCountUpdate)) = some (1, some 0) ∧
    (saveDevice (updateAt "AA:BB:CC:DD:EE:02" 600) 600
        (saveDevice (insertAt "AA:BB:CC:DD:EE:02" 0) 0 none)).map
        (fun q => (q.detectionCount, q.lastCountUpdate)) = some (1, some 0) ∧
    (saveDevice (updateAt "AA:BB:CC:DD:EE:02" 2100) 2100
        (saveDevice (updateAt "AA:BB:CC:DD:EE:02" 600) 600
          (saveDevice (insertAt "AA:BB:CC:DD:EE:02" 0) 0 none))).map
        (fun q => (q.detectionCount, q.lastCountUpdate)) = some (2, some 2100) := by
  refine ⟨fun r' p n => applySave_count_mono r' p n, ?_, by decide, by decide, by decide⟩
  exact foldl_applySave_window lo d hd ps r r.detectionCount
    (fun pn h => (hts pn h).2) (by omega) (fun he => absurd he (by omega))

/-- Witness for `saveDevice_detection_count` at a one-call trace inside
the window `[10, 10]`. -/
theorem saveDevice_detection_count_witness :
    (([(updateAt "AA:BB:CC:DD:EE:02" 10, 10)] : List (SaveParams × Nat)).foldl
        applySave (mkRow "AA:BB:CC:DD:EE:02" none)).detectionCount ≤
      (mkRow "AA:BB:CC:DD:EE:02" none).detectionCount + 1 :=
  (saveDevice_detection_count (mkRow "AA:BB:CC:DD:EE:02" none)
    [(updateAt "AA:BB:CC:DD:EE:02" 10, 10)] 10 0 (by decide)
    (by
      intro pn hpn
      rw [List.mem_singleton] at hpn
      subst hpn
      exact ⟨rfl, by decide, by decide⟩)).2.1

/-- The `mergeFamily` merge with an empty stored family takes the incoming one. -/
theorem mergeFamily_empty_stored (f : String) (hf : goTrim f ≠ "") :
    mergeFamily (some f) "" = goTrim f := by
  simp [mergeFamily, hf]

/-- The `mergeFamily` merge keeps a stored `dual` (case-insensitively). -/
theorem mergeFamily_dual (f s : String) (hf : goTrim f ≠ "") (hs : s ≠ "")
    (hd : eqFold s "dual" = true) :
    mergeFamily (some f) s = s := by
  simp [mergeFamily, hf, hs, hd]

/-- The `mergeFamily` merge promotes to `dual` when a non-empty incoming family
differs from the stored non-dual one. -/
theorem mergeFamily_promote (f s : String) (hf : goTrim f ≠ "") (hs : s ≠ "")
    (hd : eqFold s "dual" = false) (hne : eqFold s (goTrim f) = false) :
    mergeFamily (some f) s = "dual" := by
  by_cases h2 : eqFold (goTrim f) "dual" = true <;>
    simp [mergeFamily, hf, hs, hd, hne, h2]

/-- C3: `save_device(update_existing = true)` merges the device family
by dual promotion: empty stored takes the incoming value; stored dual
is kept; a non-empty incoming family different from the stored non-dual
one promotes to dual.  Concretely, a row stored as "ble" becomes "dual"
after a save with family "classic" and stays "dual" after a further
save with family "ble". -/
theorem saveDevice_family_dual_promotion
    (p : SaveParams) (now : Nat) (r : DeviceRow) (f : String)
    (hup : p.updateExisting = true) (hmac : normalizeMAC p.mac ≠ "")
    (hdev : p.deviceType = some f) (hf : goTrim f ≠ "") :
    (∃ r', saveDevice p now (some r) = some r' ∧
      (goTrim (r.deviceType.getD "") = "" → r'.deviceType = some (goTrim f)) ∧
      (eqFold (goTrim (r.deviceType.getD "")) "dual" = true →
        r'.deviceType = some (goTrim (r.deviceType.getD ""))) ∧
      (goTrim (r.deviceType.getD "") ≠ "" →
        eqFold (goTrim (r.deviceType.getD "")) "dual" = false →
        eqFold (goTrim (r.deviceType.getD "")) (goTrim f) = false →
        r'.deviceType = some "dual")) ∧
    (saveDevice (famUpdParams "classic") 0
        (some (mkRow "AA:BB:CC:DD:EE:01" (some "ble")))).map (fun q => q.deviceType) =
      some (some "dual") ∧
    (saveDevice (famUpdParams "ble") 0
        (saveDevice (famUpdParams "classic") 0
          (some (mkRow "AA:BB:CC:DD:EE:01" (some "ble"))))).map (fun q => q.deviceType) =
      some (some "dual") := by
  refine ⟨?_, by decide, by decide⟩
  refine ⟨updateDevice p (p.timestamp.getD now) r, by simp [saveDevice, hmac, hup], ?_, ?_, ?_⟩
  · intro hs
    have hm := mergeFamily_empty_stored f hf
    simp only [updateDevice, hs]
    rw [hdev, hm, if_neg hf]
  · intro hd
    have hs : goTrim (r.deviceType.getD "") ≠ "" := by
      intro he
      rw [he] at hd
      exact absurd hd (by decide)
    have hm := mergeFamily_dual f (goTrim (r.deviceType.getD "")) hf hs hd
    simp only [updateDevice]
    rw [hdev, hm, if_neg hs]
  · intro hs hd hne
    have hm := mergeFamily_promote f (goTrim (r.deviceType.getD "")) hf hs hd hne
    have hdne : ("dual" : String) ≠ "" := by decide
    simp only [updateDevice]
    rw [hdev, hm, if_neg hdne]

/-- Witness for `saveDevice_family_dual_promotion`: the "ble" row saved
with family "classic". -/
theorem saveDevice_family_dual_promotion_witness :
    ∃ r', saveDevice (famUpdParams "classic") 0
        (some (mkRow "AA:BB:CC:DD:EE:01" (some "ble"))) = some r' ∧
      r'.deviceType = some "dual" := by
  obtain ⟨⟨r', heq, _, _, hpromote⟩, _, _⟩ :=
    saveDevice_family_dual_promotion (famUpdParams "classic") 0
      (mkRow "AA:BB:CC:DD:EE:01" (some "ble")) "classic"
      rfl (by decide) rfl (by decide)
  exact ⟨r', heq, by
    have := hpromote (by decide) (by decide) (by decide)
    simpa using this⟩

/-- Any failed gate leaves the connect state unchanged and enqueues
nothing. -/
theorem connectSchedule_skip (devType : String) (rssi : Option Int)
    (hasGatt : Bool) (g : ConnGate) (now : Nat) (sendOk : Bool)
    (h : devType = "classic" ∨ rssi = none ∨ (∃ ri, rssi = some ri ∧ ri < -75) ∨
      g.seenCount < 2 ∨ hasGatt = true ∨ g.inFlight = true ∨
      (∃ last, g.lastConnAttempt = some last ∧ now - last < 1800)) :
    connectSchedule devType rssi hasGatt g now sendOk =
      ⟨false, g.inFlight, g.lastConnAttempt⟩ := by
  unfold connectSchedule
  rcases h with h | h | ⟨ri, hri, hlt⟩ | h | h | h | ⟨last, hlast, hlt⟩
  · simp [h]
  · simp [h]
  · by_cases hdt : devType = "classic"
    · simp [hdt]
    · simp [hdt, hri, hlt]
  · by_cases hdt : devType = "classic"
    · simp [hdt]
    · cases hr : rssi with
      | none => simp [hdt]
      | some ri =>
        by_cases hlt : ri < -75
        · simp [hdt, hlt]
        · simp [hdt, hlt, h]
  · by_cases hdt : devType = "classic"
    · simp [hdt]
    · cases hr : rssi with
      | none => simp [hdt]
      | some ri =>
        by_cases hlt : ri < -75
        · simp [hdt, hlt]
        · by_cases hsc : g.seenCount < 2
          · simp [hdt, hlt, hsc]
          · simp [hdt, hlt, hsc, h]
  · by_cases hdt : devType = "classic"
    · simp [hdt]
    · cases hr : rssi with
      | none => simp [hdt]
      | some ri =>
        by_cases hlt : ri < -75
        · simp [hdt, hlt]
        · by_cases hsc : g.seenCount < 2
          · simp [hdt, hlt, hsc]
          · cases hg : hasGatt
            · simp [hdt, hlt, hsc, hg, h]
            · simp [hdt, hlt, hsc, hg]
  · by_cases hdt : devType = "classic"
    · simp [hdt]
    · cases hr : rssi with
      | none => simp [hdt]
      | some ri =>
        by_cases hlt2 : ri < -75
        · simp [hdt, hlt2]
        · by_cases hsc : g.seenCount < 2
          · simp [hdt, hlt2, hsc]
          · cases hg : hasGatt
            · cases hf : g.inFlight
              · simp [hdt, hlt2, hsc, hg, hf, hlast, hlt]
              · simp [hdt, hlt2, hsc, hg, hf]
            · simp [hdt, hlt2, hsc, hg]

/-- When every gate passes, the attempt stamps `last_conn_attempt`,
and the queue outcome decides `enqueued` / `in_flight`. -/
theorem connectSchedule_attempt (devType : String) (rssi : Option Int)
    (hasGatt : Bool) (g : ConnGate) (now : Nat) (sendOk : Bool)
    (hdt : devType ≠ "classic") (hrs : rssi ≠ none)
    (hr : ∀ ri, rssi = some ri → -75 ≤ ri)
    (hsc : 2 ≤ g.seenCount) (hg : hasGatt = false) (hf : g.inFlight = false)
    (hlast : ∀ last, g.lastConnAttempt = some last → 1800 ≤ now - last) :
    connectSchedule devType rssi hasGatt g now sendOk =
      (if sendOk then ⟨true, true, some now⟩ else ⟨false, false, some now⟩) := by
  unfold connectSchedule
  cases hrr : rssi with
  | none => exact absurd hrr hrs
  | some ri =>
    have hge := hr ri hrr
    have hlt : ¬ ri < -75 := by omega
    have hsc' : ¬ g.seenCount < 2 := by omega
    cases hla : g.lastConnAttempt with
    | none => simp [hdt, hlt, hsc', hg, hf]
    | some last =>
      have := hlast last hla
      have hcool : ¬ now - last < 1800 := by omega
      simp [hdt, hlt, hsc', hg, hf, hcool]

/-- With the queue full (failed send) nothing is ever enqueued. -/
theorem connectSchedule_queue_full (devType : String) (rssi : Option Int)
    (hasGatt : Bool) (g : ConnGate) (now : Nat) :
    (connectSchedule devType rssi hasGatt g now false).enqueued = false := by
  unfold connectSchedule
  repeat' split
  all_goals first
  | rfl
  | exact absurd (by assumption : false = true) (by decide)

/-- C1: in the discovery loop's connect scheduling, no job is enqueued
when the RSSI is absent or below −75 dBm, the MAC was seen fewer than
twice, GATT services are already stored, a job is in flight, or the
last attempt is younger than 30 minutes; devices classified classic are
never enqueued; and with a full queue nothing is enqueued, and — when
every gate passed — the in-flight mark is removed. -/
theorem connect_gating (bd : BluezDevice) (hasGatt : Bool) (g : ConnGate)
    (now : Nat) (sendOk : Bool) :
    ((bd.rssi = none ∨ (∃ ri, bd.rssi = some ri ∧ ri < -75) ∨ g.seenCount < 2 ∨
        hasGatt = true ∨ g.inFlight = true ∨
        (∃ last, g.lastConnAttempt = some last ∧ now - last < 1800)) →
      (connectSchedule (bluezTypeToDeviceType bd) bd.rssi hasGatt g now sendOk).enqueued = false) ∧
    (bluezTypeToDeviceType bd = "classic" →
      (connectSchedule (bluezTypeToDeviceType bd) bd.rssi hasGatt g now sendOk).enqueued = false) ∧
    (sendOk = false →
      (connectSchedule (bluezTypeToDeviceType bd) bd.rssi hasGatt g now sendOk).enqueued = false) ∧
    (sendOk = false → bluezTypeToDeviceType bd ≠ "classic" → bd.rssi ≠ none →
      (∀ ri, bd.rssi = some ri → -75 ≤ ri) → 2 ≤ g.seenCount → hasGatt = false →
      g.inFlight = false →
      (∀ last, g.lastConnAttempt = some last → 1800 ≤ now - last) →
      (connectSchedule (bluezTypeToDeviceType bd) bd.rssi hasGatt g now sendOk).inFlight = false) := by
  refine ⟨?_, ?_, ?_, ?_⟩
  · intro h
    rw [connectSchedule_skip _ _ _ _ _ _ (Or.inr h)]
  · intro h
    rw [connectSchedule_skip _ _ _ _ _ _ (Or.inl h)]
  · intro h
    rw [h]
    exact connectSchedule_queue_full _ _ _ _ _
  · intro hsend hdt hrs hr hsc hg hf hlast
    rw [connectSchedule_attempt _ _ _ _ _ _ hdt hrs hr hsc hg hf hlast, hsend]
    rfl

/-- Witness for `connect_gating`: an LE device at RSSI −80 (below the
−75 floor) is not enqueued. -/
theorem connect_gating_witness :
    (connectSchedule
      (bluezTypeToDeviceType ⟨"", none, none, some (-80), none, none⟩)
      (BluezDevice.rssi ⟨"", none, none, some (-80), none, none⟩)
      false ⟨3, false, none⟩ 9 true).enqueued = false :=
  (connect_gating ⟨"", none, none, some (-80), none, none⟩ false ⟨3, false, none⟩ 9 true).1
    (Or.inr (Or.inl ⟨-80, rfl, by decide⟩))

/-- C5 counterexample: when the stack marks the address random, the
discovery loop stores the literal hint "random" as the MAC subtype —
not one of the four MSB-derived random subtypes, and not
"public_or_unknown". -/
theorem macTypeSub_counterexample :
    (macTypeSub (some "random")).2 = "random" ∧
    (macTypeSub (some "random")).2 ∉
      (["public_or_unknown", "non_resolvable_private", "resolvable_private",
        "reserved", "static_random"] : List String) := by decide

/-- C5 amended: every observation's `mac_type` is "public_or_unknown"
or "random"; `mac_subtype` is the lowercased, trimmed `AddressType`
hint itself (empty when the hint is absent); and `mac_type` is
"random" exactly when that hint string is "random".  The MAC's two
most significant bits are not consulted in this loop. -/
theorem macTypeSub_amended (h : Option String) :
    ((macTypeSub h).1 = "public_or_unknown" ∨ (macTypeSub h).1 = "random") ∧
    (macTypeSub h).2 = goLower (goTrim (h.getD "")) ∧
    ((macTypeSub h).1 = "random" ↔ (macTypeSub h).2 = "random") := by
  cases h with
  | none => exact ⟨Or.inl rfl, by decide, by decide⟩
  | some s =>
    by_cases hr : goLower (goTrim s) = "random"
    · exact ⟨Or.inr (by simp [macTypeSub, hr]), by simp [macTypeSub],
        by simp [macTypeSub, hr]⟩
    · refine ⟨Or.inl (by simp [macTypeSub, hr]), by simp [macTypeSub], ?_⟩
      constructor
      · intro h1
        simp [macTypeSub, hr] at h1
      · intro h2
        simp [macTypeSub] at h2
        exact absurd h2 hr

/-- C6: a repeated characteristic upsert carrying nulls for handles,
flags and values preserves the stored values of those columns, while
`read_error` and `last_read_at` are always replaced by the new call's
values (null included). -/
theorem upsertGatt_coalesce (p : GattCharacteristicParams) (r : GattCharRow)
    (hkey : ¬(normalizeMAC p.mac = "" ∨ goTrim p.serviceUUID = "" ∨ goTrim p.charUUID = ""))
    (h1 : p.serviceHandle = none) (h2 : p.charHandle = none)
    (h3 : p.flagsJSON = none) (h4 : p.valueHex = none) (h5 : p.valueASCII = none) :
    upsertGattCharacteristic p (some r) =
      some { r with readError := p.readError, lastReadAt := p.lastReadAt } ∧
    ∀ (q : GattCharacteristicParams) (r' : GattCharRow),
      ¬(normalizeMAC q.mac = "" ∨ goTrim q.serviceUUID = "" ∨ goTrim q.charUUID = "") →
      (upsertGattCharacteristic q (some r')).map (fun x => (x.readError, x.lastReadAt)) =
        some (q.readError, q.lastReadAt) := by
  constructor
  · simp [upsertGattCharacteristic, hkey, h1, h2, h3, h4, h5, setOpt]
  · intro q r' hq
    simp [upsertGattCharacteristic, hq]

/-- Witness for `upsertGatt_coalesce`: a null-carrying repeat upsert on
a populated row keeps its fields and replaces only `read_error` and
`last_read_at`. -/
theorem upsertGatt_coalesce_witness :
    upsertGattCharacteristic gattNullParams (some gattFullRow) =
      some { gattFullRow with readError := none, lastReadAt := "t2" } :=
  (upsertGatt_coalesce gattNullParams gattFullRow
    (by decide) rfl rfl rfl rfl rfl).1

/-- The head surviving a `dropWhile` does not satisfy the predicate. -/
theorem dropWhile_head_false (p : Char → Bool) :
    ∀ (l : List Char) (hd : Char) (tl : List Char),
      l.dropWhile p = hd :: tl → p hd = false := by
  intro l
  induction l with
  | nil => intro hd tl h; simp at h
  | cons a as ih =>
    intro hd tl h
    rw [List.dropWhile_cons] at h
    by_cases hp : p a = true
    · rw [if_pos hp] at h
      exact ih hd tl h
    · rw [if_neg hp] at h
      cases h
      simpa using hp

/-- Trimming whitespace is idempotent. -/
theorem trimChars_idem (l : List Char) : trimChars (trimChars l) = trimChars l := by
  show List.rdropWhile isSpaceChar
      (List.dropWhile isSpaceChar (List.rdropWhile isSpaceChar (List.dropWhile isSpaceChar l))) =
    List.rdropWhile isSpaceChar (List.dropWhile isSpaceChar l)
  cases hr : List.rdropWhile isSpaceChar (List.dropWhile isSpaceChar l) with
  | nil => simp
  | cons hd tl =>
    have hpref := List.rdropWhile_prefix isSpaceChar (List.dropWhile isSpaceChar l)
    rw [hr] at hpref
    obtain ⟨t, ht⟩ := hpref
    have ht' : List.dropWhile isSpaceChar l = hd :: (tl ++ t) := by
      rw [← ht]; rfl
    have hhd := dropWhile_head_false isSpaceChar l hd (tl ++ t) ht'
    rw [List.dropWhile_cons, hhd, if_neg (by simp), ← hr]
    exact List.rdropWhile_idempotent _ _

/-- Trimming with `goTrim` is idempotent. -/
theorem goTrim_idem (s : String) : goTrim (goTrim s) = goTrim s := by
  show String.mk (trimChars (String.mk (trimChars s.data)).data) = _
  rw [show (String.mk (trimChars s.data)).data = trimChars s.data from rfl, trimChars_idem]
  rfl

/-- C7 counterexample: with an empty in-process cache (no history write
recorded for the MAC yet) a call with empty GPS text appends no row,
although the claimed append condition ("no write was recorded yet")
holds. -/
theorem recordGPSHistory_counterexample :
    (⟨none, none, 0⟩ : GpsHistState).lastAt = none ∧
    (recordDeviceGPSHistoryIfChanged "AA:BB:CC:DD:EE:01" "" 100
      ⟨none, none, 0⟩).1 = false := by
  decide

/-- C7 amended: for a non-empty MAC and non-empty trimmed GPS text, a
history row is appended iff the text differs from the cached text or no
cached write for the MAC is younger than 30 s; the row count grows by
one exactly on append; and two calls with the same text less than 30 s
apart append at most one row — exactly one from an empty cache. -/
theorem recordGPSHistory_amended (mac gpsText : String) (now : Nat)
    (st : GpsHistState) (hm : normalizeMAC mac ≠ "") (ht : goTrim gpsText ≠ "") :
    ((recordDeviceGPSHistoryIfChanged mac gpsText now st).1 = true ↔
      (goTrim gpsText ≠ st.lastTxt.getD "" ∨
        ∀ a, st.lastAt = some a → 30 ≤ now - a)) ∧
    ((recordDeviceGPSHistoryIfChanged mac gpsText now st).2.rows =
      if (recordDeviceGPSHistoryIfChanged mac gpsText now st).1 then st.rows + 1
      else st.rows) ∧
    (∀ now2, now2 - now < 30 →
      (recordDeviceGPSHistoryIfChanged mac gpsText now2
        (recordDeviceGPSHistoryIfChanged mac gpsText now st).2).2.rows ≤ st.rows + 1) ∧
    (recordDeviceGPSHistoryIfChanged mac gpsText 10
      (recordDeviceGPSHistoryIfChanged mac gpsText 0 ⟨none, none, 0⟩).2).2.rows = 1 := by
  have step : ∀ (s : GpsHistState) (n : Nat),
      recordDeviceGPSHistoryIfChanged mac gpsText n s =
        if s.lastTxt.getD "" = goTrim gpsText ∧ ∃ a, s.lastAt = some a ∧ n - a < 30
        then (false, s)
        else (true, ⟨some (goTrim gpsText), some n, s.rows + 1⟩) := by
    intro s n
    unfold recordDeviceGPSHistoryIfChanged
    rw [if_neg hm, if_neg ht]
    by_cases htxt : s.lastTxt.getD "" = goTrim gpsText
    · cases hla : s.lastAt with
      | none => simp [htxt, hla]
      | some a =>
        by_cases hrec : n - a < 30
        · simp [htxt, hla, hrec]
        · simp [htxt, hla, hrec]
    · simp [htxt]
  refine ⟨?_, ?_, ?_, ?_⟩
  · rw [step st now]
    by_cases hc : st.lastTxt.getD "" = goTrim gpsText ∧
        ∃ a, st.lastAt = some a ∧ now - a < 30
    · obtain ⟨h1, a, ha, hrec⟩ := hc
      rw [if_pos ⟨h1, a, ha, hrec⟩]
      simp only [Bool.false_eq_true, false_iff]
      push_neg
      refine ⟨h1.symm, a, ha, by omega⟩
    · rw [if_neg hc]
      simp only [true_iff]
      by_cases h1 : st.lastTxt.getD "" = goTrim gpsText
      · right
        intro a ha
        by_contra hlt
        exact hc ⟨h1, a, ha, by omega⟩
      · exact Or.inl (fun he => h1 he.symm)
  · rw [step st now]
    by_cases hc : st.lastTxt.getD "" = goTrim gpsText ∧
        ∃ a, st.lastAt = some a ∧ now - a < 30
    · rw [if_pos hc]; rfl
    · rw [if_neg hc]; rfl
  · intro now2 h2
    rw [step st now]
    by_cases hc : st.lastTxt.getD "" = goTrim gpsText ∧
        ∃ a, st.lastAt = some a ∧ now - a < 30
    · rw [if_pos hc, step st now2]
      by_cases hc2 : st.lastTxt.getD "" = goTrim gpsText ∧
          ∃ a, st.lastAt = some a ∧ now2 - a < 30
      · rw [if_pos hc2]
        exact Nat.le_succ st.rows
      · rw [if_neg hc2]
    · rw [if_neg hc, step _ now2]
      rw [if_pos ⟨rfl, now, rfl, h2⟩]
  · rw [step ⟨none, none, 0⟩ 0]
    rw [if_neg (by
      rintro ⟨h1, a, ha, -⟩
      exact ht (by simpa using h1.symm))]
    rw [step _ 10]
    rw [if_pos ⟨rfl, 0, rfl, by omega⟩]

/-- Witness for `recordGPSHistory_amended`: a first-ever record for a
MAC appends a row. -/
theorem recordGPSHistory_amended_witness :
    (recordDeviceGPSHistoryIfChanged "AA:BB:CC:DD:EE:01" "1.000000, 2.000000" 0
      ⟨none, none, 0⟩).1 = true :=
  (recordGPSHistory_amended "AA:BB:CC:DD:EE:01" "1.000000, 2.000000" 0
    ⟨none, none, 0⟩ (by decide) (by decide)).1.mpr
    (Or.inr (fun a ha => nomatch ha))

/-- C8: `GPSStringForRecord` yields `"lat, lon"` while the last fix is
no older than the freshness timeout, `"(lat, lon)"` once it is older,
and nothing when no fix was ever received; with timeout 300 s and fix
(37, −122) at T=0 it yields "37.000000, -122.000000" at T=100 s and
"(37.000000, -122.000000)" at T=400 s. -/
theorem gpsStringForRecord_spec (s : GpsState) (now t : Nat)
    (hu : s.useGPS = true) (hf : s.lastFix = some t) :
    (now - t ≤ s.timeout →
      gpsStringForRecord s now = some (fmt6 s.lat ++ ", " ++ fmt6 s.lon)) ∧
    (s.timeout < now - t →
      gpsStringForRecord s now = some ("(" ++ fmt6 s.lat ++ ", " ++ fmt6 s.lon ++ ")")) ∧
    (∀ (s2 : GpsState) (n2 : Nat), s2.lastFix = none → gpsStringForRecord s2 n2 = none) ∧
    gpsStringForRecord ⟨true, 37, -122, some 0, 300⟩ 100 =
      some "37.000000, -122.000000" ∧
    gpsStringForRecord ⟨true, 37, -122, some 0, 300⟩ 400 =
      some "(37.000000, -122.000000)" := by
  refine ⟨?_, ?_, ?_, by decide, by decide⟩
  · intro h
    simp [gpsStringForRecord, hu, hf, h]
  · intro h
    simp [gpsStringForRecord, hu, hf, show ¬(now - t ≤ s.timeout) by omega]
  · intro s2 n2 h2
    cases hu2 : s2.useGPS <;> simp [gpsStringForRecord, hu2, h2]

/-- Witness for `gpsStringForRecord_spec` at the scenario's fresh
instant T=100 s. -/
theorem gpsStringForRecord_spec_witness :
    gpsStringForRecord ⟨true, 37, -122, some 0, 300⟩ 100 =
      some (fmt6 (37 : ℚ) ++ ", " ++ fmt6 (-122 : ℚ)) :=
  (gpsStringForRecord_spec ⟨true, 37, -122, some 0, 300⟩ 100 0 rfl rfl).1 (by decide)

/-- C9: on a catalog holding the `cokeon` iBeacon pattern
(company 76, the configured UUID, major 42, minor 7) the classifier
returns exactly "cokeon" for the observation carrying the 23-byte
Apple payload, whose first two bytes are the iBeacon prefix, whose
bytes 2..17 spell the pattern UUID, and whose big-endian words at
offsets 18 and 20 are 42 and 7. -/
theorem detect_cokeon :
    detectTypedDevice [cokeonPattern] [] cokeonMfg "" = "cokeon" ∧
    (parseHexBytes cokeonPayloadHex).length = 23 ∧
    (parseHexBytes cokeonPayloadHex).take 2 = [2, 21] ∧
    formatUUID (((parseHexBytes cokeonPayloadHex).drop 2).take 16) =
      "8AEFB031-6C32-486F-825B-E26FA193487D" ∧
    ((parseHexBytes cokeonPayloadHex).getD 18 0) * 256 +
      (parseHexBytes cokeonPayloadHex).getD 19 0 = 42 ∧
    ((parseHexBytes cokeonPayloadHex).getD 20 0) * 256 +
      (parseHexBytes cokeonPayloadHex).getD 21 0 = 7 := by
  refine ⟨by decide, by decide, by decide, by decide, by decide, by decide⟩

/-- Closed form of `UpdateDeviceGPS` on an existing row. -/
theorem updateDeviceGPS_some (mac g : String) (r : DeviceRow) :
    updateDeviceGPS mac g (some r) =
      some (if normalizeMAC mac = "" ∨ goTrim g = "" then r
            else { r with gps := some (goTrim g) }) := by
  unfold updateDeviceGPS
  by_cases h1 : normalizeMAC mac = ""
  · simp [h1]
  · by_cases h2 : goTrim g = ""
    · simp [h1, h2]
    · simp [h1, h2]

/-- Closed form of `UpdateDeviceMarkedType` on an existing row. -/
theorem updateDeviceMarkedType_some (mac mt : String) (r : DeviceRow) :
    updateDeviceMarkedType mac mt (some r) =
      some (if normalizeMAC mac = "" ∨ goTrim mt = "" then r
            else { r with markedType := some (goTrim mt) }) := by
  unfold updateDeviceMarkedType
  by_cases h1 : normalizeMAC mac = ""
  · simp [h1]
  · by_cases h2 : goTrim mt = ""
    · simp [h1, h2]
    · simp [h1, h2]

/-- The marker tail leaves the row alone or sets only the `type`
column to the trimmed marker. -/
theorem markedAction_row (mac mts : String) (r : DeviceRow) (st : MacWriteState) :
    (markedAction mac mts (some r) st).1 = some r ∨
    (goTrim mts ≠ "" ∧ normalizeMAC mac ≠ "" ∧
      (markedAction mac mts (some r) st).1 =
        some { r with markedType := some (goTrim mts) }) := by
  unfold markedAction
  by_cases hmt : goTrim mts = ""
  · left; simp [hmt]
  · rw [if_neg hmt]
    by_cases hm : normalizeMAC mac = ""
    · left
      simp only [updateDeviceMarkedType_some, goTrim_idem]
      rw [if_pos (Or.inl hm)]
    · right
      refine ⟨hmt, hm, ?_⟩
      simp only [updateDeviceMarkedType_some, goTrim_idem]
      rw [if_neg (by push_neg; exact ⟨hm, hmt⟩)]

/-- The quick GPS refresh leaves the row alone or sets only the `gps`
column, and only when the text is non-empty and `gpsQuickNeed` held. -/
theorem quickGpsStep_row (o : LoopObservation) (r : DeviceRow)
    (hist : GpsHistState) (st : MacWriteState) (now : Nat) :
    (quickGpsStep o (some r) hist st now).1 = some r ∨
    (∃ g, o.gpsStr = some g ∧ goTrim g ≠ "" ∧ normalizeMAC o.mac ≠ "" ∧
      gpsQuickNeed st (goTrim g) now = true ∧
      (quickGpsStep o (some r) hist st now).1 =
        some { r with gps := some (goTrim g) }) := by
  unfold quickGpsStep
  cases hg : o.gpsStr with
  | none => left; rfl
  | some g =>
    dsimp only
    by_cases ht : goTrim g = ""
    · left; simp [ht]
    · rw [if_neg ht]
      by_cases hneed : gpsQuickNeed st (goTrim g) now = true
      · rw [if_pos hneed]
        by_cases hm : normalizeMAC o.mac = ""
        · left
          show (updateDeviceGPS o.mac (goTrim g) (some r), _, _).1 = some r
          simp only [updateDeviceGPS_some, goTrim_idem]
          rw [if_pos (Or.inl hm)]
        · right
          refine ⟨g, rfl, ht, hm, hneed, ?_⟩
          show (updateDeviceGPS o.mac (goTrim g) (some r), _, _).1 =
            some { r with gps := some (goTrim g) }
          simp only [updateDeviceGPS_some, goTrim_idem]
          rw [if_neg (by push_neg; exact ⟨hm, ht⟩)]
      · rw [if_neg hneed]
        left; rfl

/-- A `true` quick-refresh gate means the text changed or every
recorded GPS write is at least 10 s old. -/
theorem gpsQuickNeed_cases (st : MacWriteState) (t : String) (now : Nat)
    (h : gpsQuickNeed st t now = true) :
    st.lastGPSVal ≠ some t ∨ ∀ w, st.lastGPSWrite = some w → 10 ≤ now - w := by
  unfold gpsQuickNeed at h
  by_cases h1 : (match st.lastGPSVal with
      | none => true
      | some prev => decide (prev ≠ t)) = true
  · left
    cases hv : st.lastGPSVal with
    | none => simp
    | some prev =>
      rw [hv] at h1
      simp only [decide_eq_true_eq] at h1
      simpa using h1
  · right
    rw [if_neg h1] at h
    intro w hw
    rw [hw] at h
    simpa using h

/-- Within the 10 s window the step takes the quick branch. -/
theorem observePersistStep_throttled (o : LoopObservation) (row : Option DeviceRow)
    (hist : GpsHistState) (st : MacWriteState) (now ts last : Nat)
    (hthr : st.lastDeviceWrite = some last) (hwin : now - last < 10) :
    observePersistStep o row hist st now ts =
      ⟨(markedAction o.mac o.markedTypeStr (quickGpsStep o row hist st now).1
          (quickGpsStep o row hist st now).2.2).1,
        (quickGpsStep o row hist st now).2.1,
        (markedAction o.mac o.markedTypeStr (quickGpsStep o row hist st now).1
          (quickGpsStep o row hist st now).2.2).2,
        false, safeName o.rawName⟩ := by
  unfold observePersistStep
  rw [hthr]
  simp [hwin]

/-- Outside the window the step takes the full-write branch. -/
theorem observePersistStep_full (o : LoopObservation) (row : Option DeviceRow)
    (hist : GpsHistState) (st : MacWriteState) (now ts : Nat)
    (hnt : ∀ last, st.lastDeviceWrite = some last → 10 ≤ now - last) :
    observePersistStep o row hist st now ts =
      ⟨(markedAction o.mac o.markedTypeStr
          (saveDevice (observeSaveParams o ts) now
            (fullGpsStep o row hist { st with lastDeviceWrite := some now } now).1)
          (fullGpsStep o row hist { st with lastDeviceWrite := some now } now).2.2).1,
        (fullGpsStep o row hist { st with lastDeviceWrite := some now } now).2.1,
        (markedAction o.mac o.markedTypeStr
          (saveDevice (observeSaveParams o ts) now
            (fullGpsStep o row hist { st with lastDeviceWrite := some now } now).1)
          (fullGpsStep o row hist { st with lastDeviceWrite := some now } now).2.2).2,
        true, safeName o.rawName⟩ := by
  unfold observePersistStep
  cases hld : st.lastDeviceWrite with
  | none => simp
  | some last =>
    have h10 := hnt last hld
    have hw : ¬(now - last < 10) := by omega
    simp [hw]

/-- C4: inside the 10 s throttle window the observation performs no
full `save_device` rewrite, and the existing row changes at most in its
`gps` column — only when the GPS text changed or the last GPS write for
the MAC is missing or at least 10 s old — and in its `type` column —
only when the classifier's marked type differs from the last value
marked for the MAC — every other column staying unchanged. -/
theorem observe_throttle_frame (o : LoopObservation) (r : DeviceRow)
    (hist : GpsHistState) (st : MacWriteState) (now ts last : Nat)
    (hthr : st.lastDeviceWrite = some last) (hwin : now - last < 10)
    (hmark : ∀ m, st.lastMarked = some m → r.markedType = some m) :
    (observePersistStep o (some r) hist st now ts).savedFull = false ∧
    ∃ r', (observePersistStep o (some r) hist st now ts).row = some r' ∧
      r' = { r with gps := r'.gps, markedType := r'.markedType } ∧
      (r'.gps ≠ r.gps →
        ∃ g, o.gpsStr = some g ∧ goTrim g ≠ "" ∧
          (st.lastGPSVal ≠ some (goTrim g) ∨
            ∀ w, st.lastGPSWrite = some w → 10 ≤ now - w)) ∧
      (r'.markedType ≠ r.markedType →
        goTrim o.markedTypeStr ≠ "" ∧
        st.lastMarked ≠ some (goTrim o.markedTypeStr)) := by
  rw [observePersistStep_throttled o (some r) hist st now ts last hthr hwin]
  refine ⟨rfl, ?_⟩
  rcases quickGpsStep_row o r hist st now with hq | ⟨g, hg, hgt, hgm, hneed, hq⟩
  · rw [hq]
    rcases markedAction_row o.mac o.markedTypeStr r
        ((quickGpsStep o (some r) hist st now).2.2) with hm2 | ⟨hmnz, hmm, hm2⟩
    · exact ⟨r, by rw [hm2], rfl, fun h => absurd rfl h, fun h => absurd rfl h⟩
    · refine ⟨{ r with markedType := some (goTrim o.markedTypeStr) }, by rw [hm2], rfl,
        fun h => absurd rfl h,
        fun hne => ⟨hmnz, fun heq => hne ((hmark _ heq).symm)⟩⟩
  · rw [hq]
    rcases markedAction_row o.mac o.markedTypeStr { r with gps := some (goTrim g) }
        ((quickGpsStep o (some r) hist st now).2.2) with hm2 | ⟨hmnz, hmm, hm2⟩
    · exact ⟨{ r with gps := some (goTrim g) }, by rw [hm2], rfl,
        fun _ => ⟨g, hg, hgt, gpsQuickNeed_cases st (goTrim g) now hneed⟩,
        fun hne => absurd rfl hne⟩
    · refine ⟨{ r with
          gps := some (goTrim g)
          markedType := some (goTrim o.markedTypeStr) },
        by rw [hm2], rfl,
        fun _ => ⟨g, hg, hgt, gpsQuickNeed_cases st (goTrim g) now hneed⟩,
        fun hne => ⟨hmnz, fun heq => hne ((hmark _ heq).symm)⟩⟩

/-- Witness for `observe_throttle_frame`: one second after the last
full write, no full save happens. -/
theorem observe_throttle_frame_witness :
    (observePersistStep obsW (some (mkRow "AA:BB:CC:DD:EE:04" none))
      ⟨none, none, 0⟩ ⟨some 5, none, none, none⟩ 6 6).savedFull = false :=
  (observe_throttle_frame obsW (mkRow "AA:BB:CC:DD:EE:04" none)
    ⟨none, none, 0⟩ ⟨some 5, none, none, none⟩ 6 6 5 rfl (by decide)
    (fun m hm => nomatch hm)).1

/-- A full `SaveDevice` with a provided name and `update_existing`
stores that name, for any prior row state. -/
theorem saveDevice_name (p : SaveParams) (now : Nat) (row : Option DeviceRow)
    (hmac : normalizeMAC p.mac ≠ "") (hup : p.updateExisting = true)
    (n : String) (hn : p.name = some n) :
    ∃ r', saveDevice p now row = some r' ∧ r'.name = some n := by
  unfold saveDevice
  rw [if_neg hmac]
  cases row with
  | none => exact ⟨_, rfl, by simp [insertDevice, hn]⟩
  | some r =>
    rw [hup]
    exact ⟨_, rfl, by simp [updateDevice, hn, setOpt]⟩

/-- C10: a local name that trims to empty or is itself MAC-shaped is
replaced by "Unknown": `safeName` maps any such name to "Unknown",
the observation step prints "Unknown" in its console line, and a full
save stores the name "Unknown" — in particular for a device whose
advertised name equals its own address. -/
theorem observe_safeName (o : LoopObservation) (row : Option DeviceRow)
    (hist : GpsHistState) (st : MacWriteState) (now ts : Nat)
    (hmac : normalizeMAC o.mac ≠ "")
    (hname : goTrim o.rawName = "" ∨ isMACAddress o.rawName = true) :
    (∀ s0 : String, (goTrim s0 = "" ∨ isMACAddress s0 = true) →
      safeName s0 = "Unknown") ∧
    (observePersistStep o row hist st now ts).printedName = "Unknown" ∧
    ((observePersistStep o row hist st now ts).savedFull = true →
      ∃ r', (observePersistStep o row hist st now ts).row = some r' ∧
        r'.name = some "Unknown") := by
  have hsafe : ∀ s0 : String, (goTrim s0 = "" ∨ isMACAddress s0 = true) →
      safeName s0 = "Unknown" := by
    intro s0 h0
    unfold safeName
    by_cases he : goTrim s0 = ""
    · rw [if_pos he]
    · rcases h0 with h0 | h0
      · exact absurd h0 he
      · have hm2 : isMACAddress (goTrim s0) = true := by
          unfold isMACAddress at h0 ⊢
          rw [goTrim_idem]
          exact h0
        rw [if_neg he, if_pos hm2]
  have hfull : ∀ (hnt : ∀ l, st.lastDeviceWrite = some l → 10 ≤ now - l),
      ∃ r', (observePersistStep o row hist st now ts).row = some r' ∧
        r'.name = some "Unknown" := by
    intro hnt
    rw [observePersistStep_full o row hist st now ts hnt]
    have hnm : (observeSaveParams o ts).name = some "Unknown" := by
      show some (safeName o.rawName) = some "Unknown"
      rw [hsafe o.rawName hname]
    obtain ⟨r2, hr2, hr2name⟩ := saveDevice_name (observeSaveParams o ts) now
      (fullGpsStep o row hist { st with lastDeviceWrite := some now } now).1
      hmac rfl "Unknown" hnm
    rw [PersistResult.row, hr2]
    rcases markedAction_row o.mac o.markedTypeStr r2
        ((fullGpsStep o row hist { st with lastDeviceWrite := some now } now).2.2) with
      hm2 | ⟨-, -, hm2⟩
    · exact ⟨r2, by rw [hm2], hr2name⟩
    · exact ⟨{ r2 with markedType := some (goTrim o.markedTypeStr) },
        by rw [hm2], hr2name⟩
  refine ⟨hsafe, ?_, ?_⟩
  · cases hld : st.lastDeviceWrite with
    | none =>
      rw [observePersistStep_full o row hist st now ts
        (fun l hl => by rw [hld] at hl; cases hl)]
      exact hsafe o.rawName hname
    | some last =>
      by_cases hw : now - last < 10
      · rw [observePersistStep_throttled o row hist st now ts last hld hw]
        exact hsafe o.rawName hname
      · rw [observePersistStep_full o row hist st now ts
          (fun l hl => by rw [hld] at hl; cases hl; omega)]
        exact hsafe o.rawName hname
  · cases hld : st.lastDeviceWrite with
    | none =>
      intro _
      exact hfull (fun l hl => by rw [hld] at hl; cases hl)
    | some last =>
      by_cases hw : now - last < 10
      · rw [observePersistStep_throttled o row hist st now ts last hld hw]
        intro h
        exact nomatch h
      · intro _
        exact hfull (fun l hl => by rw [hld] at hl; cases hl; omega)

/-- Witness for `observe_safeName`: a device whose advertised name
equals its own address is printed as "Unknown". -/
theorem observe_safeName_witness :
    (observePersistStep obsSelfNamed none ⟨none, none, 0⟩
      ⟨none, none, none, none⟩ 0 0).printedName = "Unknown" :=
  (observe_safeName obsSelfNamed none ⟨none, none, 0⟩
    ⟨none, none, none, none⟩ 0 0 (by decide) (Or.inr (by decide))).2.1

example : fmt6 37 = "37.000000" := by decide
example : fmt6 (-122) = "-122.000000" := by decide
example : gpsStringForRecord ⟨true, 37, -122, some 0, 300⟩ 100 =
    some "37.000000, -122.000000" := by decide
example : gpsStringForRecord ⟨true, 37, -122, some 0, 300⟩ 400 =
    some "(37.000000, -122.000000)" := by decide
example : isMACAddress "AA:BB:CC:DD:EE:01" = true := by decide
example : safeName "AA:BB:CC:DD:EE:01" = "Unknown" := by decide
example : safeName "  " = "Unknown" := by decide
example : safeName " Coke " = "Coke" := by decide

end Pible
